import Mathlib

/-
Shallow embedding of the ATen `Tensor` handle type
(src/aten/src/ATen/templates/TensorBody.h) together with the pieces of its
environment the header relies on.  The `Tensor` handle is a thin wrapper
around an intrusive pointer to a reference-counted backing object
(`TensorImpl`).  We model the heap of backing objects explicitly: a list of
(backing object, strong reference count) pairs, indexed by allocation order;
a handle stores the index of its backing object (or `none` for the
null/undefined handle, which in C++ is the `UndefinedTensorImpl` singleton).

Parts of the program that live outside the single source file under src/
(the `c10::intrusive_ptr` operations, `TensorImpl`, `UndefinedTensorImpl`,
`c10::maybe_wrap_dim`, the channels-last stride helpers, the dispatcher entry
`__dispatch_contiguous`, `Tensor::enforce_invariants`, and the autograd hook
engine) are modelled from the specification; each such definition carries a
doc comment saying so.
-/

namespace ATen

/-- Memory formats, from c10::MemoryFormat. -/
inductive MemoryFormat
  | Contiguous
  | Preserve
  | ChannelsLast
  | ChannelsLast3d
deriving DecidableEq, Repr

/-- Layouts, from c10::Layout (only the ones the handle surface consults). -/
inductive Layout
  | Strided
  | Sparse
  | SparseCsr
  | Mkldnn
deriving DecidableEq, Repr

/-- The error kinds raised by the handle surface (spec §7 names them
UndefinedState, InvariantViolation, IndexOutOfRange, UnsupportedOperation;
`checkFailed` stands for a generic TORCH_CHECK failure). -/
inductive Err
  | undefinedState
  | invariantViolation
  | indexOutOfRange
  | unsupportedOperation
  | checkFailed
deriving DecidableEq, Repr

/-- The dispatch key set carried by a backing object, reduced to the named
bits the handle surface reads (is_mkldnn, is_sparse, ...). -/
structure DispatchKeySet where
  cpu : Bool
  cuda : Bool
  sparse : Bool
  mkldnn : Bool
  quantized : Bool
deriving DecidableEq, Repr

/-- Modelled from the spec: the Backing Object (`c10::TensorImpl`, not under
src/) — "an opaque, heap-allocated, mutable record holding shape/stride
metadata, a data-type tag, a device/backend tag, a dispatch-key-set, storage
reference".  The contiguity and strides-like-channels-last booleans model the
cached flag bits `is_contiguous_`, `is_channels_last_contiguous_`,
`is_channels_last_3d_contiguous_`, `is_channels_last_`, `is_channels_last_3d_`
that `TensorImpl::is_contiguous` / `is_strides_like_channels_last` return. -/
structure TensorImpl where
  sizes : List Int
  strides : List Int
  storageOffset : Int
  itemsize : Nat
  layout : Layout
  keySet : DispatchKeySet
  hasStorage : Bool
  isContiguousDefault : Bool
  isChannelsLastContiguous : Bool
  isChannelsLast3dContiguous : Bool
  stridesLikeChannelsLast : Bool
  stridesLikeChannelsLast3d : Bool
deriving DecidableEq, Repr

/-- Modelled from the spec: `TensorImpl::dim()` — dimensionality is the
length of the shape sequence. -/
def TensorImpl.dim (o : TensorImpl) : Int :=
  (o.sizes.length : Int)

/-- Modelled from the spec: `TensorImpl::numel()` — the element count, the
product of the (non-negative) shape entries. -/
def TensorImpl.numel (o : TensorImpl) : Nat :=
  (o.sizes.map Int.toNat).prod

/-- Modelled from the spec: `TensorImpl::is_contiguous(memory_format)` (not
under src/) returns the cached contiguity flag selected by the requested
memory format. -/
def TensorImpl.is_contiguous (o : TensorImpl) (f : MemoryFormat) : Bool :=
  match f with
  | MemoryFormat.ChannelsLast => o.isChannelsLastContiguous
  | MemoryFormat.ChannelsLast3d => o.isChannelsLast3dContiguous
  | _ => o.isContiguousDefault

/-- Modelled from the spec: `TensorImpl::is_mkldnn` consults the
dispatch-key-set bit for the opaque mkldnn backend. -/
def TensorImpl.is_mkldnn (o : TensorImpl) : Bool :=
  o.keySet.mkldnn

/-- Modelled from the spec: `TensorImpl::is_sparse` consults the
dispatch-key-set bit for the sparse backend. -/
def TensorImpl.is_sparse (o : TensorImpl) : Bool :=
  o.keySet.sparse

/-- The heap of backing objects: each entry is a backing object paired with
its strong reference count.  A pointer is an index into this list. -/
structure Heap where
  objs : List (TensorImpl × Nat)
deriving DecidableEq, Repr

/-- Pointwise list update helper. -/
def modifyAt (f : α → α) : Nat → List α → List α
  | _, [] => []
  | 0, x :: xs => f x :: xs
  | n + 1, x :: xs => x :: modifyAt f n xs

/-- Modelled from the spec: `c10::intrusive_ptr` strong-count increment
(retain), from c10/util/intrusive_ptr.h which is not under src/. -/
def Heap.incref (h : Heap) (i : Nat) : Heap :=
  ⟨modifyAt (fun oc => (oc.1, oc.2 + 1)) i h.objs⟩

/-- Modelled from the spec: `c10::intrusive_ptr` strong-count decrement
(release of one ownership unit), from c10/util/intrusive_ptr.h which is not
under src/. -/
def Heap.decref (h : Heap) (i : Nat) : Heap :=
  ⟨modifyAt (fun oc => (oc.1, oc.2 - 1)) i h.objs⟩

/-- The strong count currently recorded for pointer `i` (none if the pointer
is not a live allocation). -/
def Heap.strongAt (h : Heap) (i : Nat) : Option Nat :=
  h.objs[i]?.map Prod.snd

/-- The handle: `class Tensor`, whose single data member is
`c10::intrusive_ptr<TensorImpl, UndefinedTensorImpl> impl_`.  `none` is the
null state (the `UndefinedTensorImpl` singleton target). -/
structure Tensor where
  impl : Option Nat
deriving DecidableEq, Repr

/-- `Tensor::Tensor()` — the default constructor produces the null handle. -/
def Tensor.nullT : Tensor :=
  ⟨none⟩

/-- `Tensor::defined()` — true iff `impl_` does not hold the null
(UndefinedTensorImpl) target. -/
def Tensor.defined (t : Tensor) : Bool :=
  t.impl.isSome

/-- `Tensor::is_same(other)` — pointer identity `impl_ == other.impl_`. -/
def Tensor.is_same (a b : Tensor) : Bool :=
  a.impl == b.impl

/-- `Tensor::Tensor(const Tensor&)` — the defaulted copy constructor copies
the intrusive pointer, incrementing the strong count when the target is not
null (intrusive_ptr retain, modelled from the spec since intrusive_ptr.h is
not under src/). -/
def Tensor.copyCtor (h : Heap) (t : Tensor) : Heap × Tensor :=
  match t.impl with
  | none => (h, ⟨none⟩)
  | some i => (h.incref i, ⟨some i⟩)

/-- The destructor of `Tensor` (via the intrusive_ptr member, modelled from
the spec): decrements the strong count when the target is not null, and is a
no-op on the null handle. -/
def Tensor.dtor (h : Heap) (t : Tensor) : Heap :=
  match t.impl with
  | none => h
  | some i => h.decref i

/-- `Tensor::Tensor(unsafe_borrow_t, const Tensor& rhs)` — initializes
`impl_` with `intrusive_ptr::reclaim(rhs.impl_.get())`: it adopts the raw
pointer at +0, touching no reference count (reclaim modelled from the spec,
intrusive_ptr.h not under src/). -/
def Tensor.borrowCtor (h : Heap) (rhs : Tensor) : Heap × Tensor :=
  (h, ⟨rhs.impl⟩)

/-- `Tensor::unsafeReleaseTensorImpl()` — `impl_.release()`: relinquishes the
raw pointer, leaving the handle null, without decrementing any count (release
modelled from the spec, intrusive_ptr.h not under src/).  Returns the new
handle state and the raw pointer given up. -/
def Tensor.releaseImpl (h : Heap) (t : Tensor) : Heap × Tensor × Option Nat :=
  (h, ⟨none⟩, t.impl)

/-- `Tensor::reset()` — `impl_.reset()`: drops the held reference (one decref
when not null, modelled from the spec) and leaves the handle null. -/
def Tensor.reset (h : Heap) (t : Tensor) : Heap × Tensor :=
  match t.impl with
  | none => (h, ⟨none⟩)
  | some i => (h.decref i, ⟨none⟩)

/-- `MaybeOwnedTraits<at::Tensor>::createBorrow(from)` — builds the borrow
via the `unsafe_borrow_t` constructor. -/
def MaybeOwnedTraits.createBorrow (h : Heap) (src : Tensor) : Heap × Tensor :=
  Tensor.borrowCtor h src

/-- `MaybeOwnedTraits<at::Tensor>::destroyBorrow(toDestroy)` — calls
`unsafeReleaseTensorImpl()`, "leaking" the raw pointer, which was already +0.
Returns the borrow's post-release handle state (on which the member
destructor subsequently runs). -/
def MaybeOwnedTraits.destroyBorrow (h : Heap) (t : Tensor) : Heap × Tensor :=
  let r := Tensor.releaseImpl h t
  (r.1, r.2.1)

/-- The whole lifetime of a borrowed handle built from `t`: construct the
borrow, destroy it via `destroyBorrow`, then run the member destructor on
what is left of the borrow.  Returns the final heap. -/
def borrowRoundTrip (h : Heap) (t : Tensor) : Heap :=
  let c := MaybeOwnedTraits.createBorrow h t
  let d := MaybeOwnedTraits.destroyBorrow c.1 c.2
  Tensor.dtor d.1 d.2

/-- Dereference of `impl_->` on a handle: the null handle holds the
`UndefinedTensorImpl` singleton, and (modelled from the spec, since
UndefinedTensorImpl.cpp is not under src/) "invoking any metadata/operation
query on it fails with an UndefinedState error".  A dangling pointer never
arises for the valid handles the theorems quantify over; we map it to the
same error. -/
def Tensor.getImpl (h : Heap) (t : Tensor) : Except Err TensorImpl :=
  match t.impl with
  | none => Except.error Err.undefinedState
  | some i =>
    match h.objs[i]? with
    | some oc => Except.ok oc.1
    | none => Except.error Err.undefinedState

/-- `Tensor::dim()` — `impl_->dim()`. -/
def Tensor.dim (h : Heap) (t : Tensor) : Except Err Int :=
  (t.getImpl h).map TensorImpl.dim

/-- `Tensor::sizes()` — `impl_->sizes()`. -/
def Tensor.sizes (h : Heap) (t : Tensor) : Except Err (List Int) :=
  (t.getImpl h).map TensorImpl.sizes

/-- `Tensor::strides()` — `impl_->strides()`. -/
def Tensor.strides (h : Heap) (t : Tensor) : Except Err (List Int) :=
  (t.getImpl h).map TensorImpl.strides

/-- `Tensor::storage_offset()` — `impl_->storage_offset()`. -/
def Tensor.storage_offset (h : Heap) (t : Tensor) : Except Err Int :=
  (t.getImpl h).map TensorImpl.storageOffset

/-- `Tensor::numel()` — `impl_->numel()`. -/
def Tensor.numel (h : Heap) (t : Tensor) : Except Err Nat :=
  (t.getImpl h).map TensorImpl.numel

/-- `Tensor::itemsize()` — `impl_->itemsize()`. -/
def Tensor.itemsize (h : Heap) (t : Tensor) : Except Err Nat :=
  (t.getImpl h).map TensorImpl.itemsize

/-- `Tensor::layout()` — `impl_->layout()`. -/
def Tensor.layout (h : Heap) (t : Tensor) : Except Err Layout :=
  (t.getImpl h).map TensorImpl.layout

/-- `Tensor::key_set()` — `impl_->key_set()`. -/
def Tensor.key_set (h : Heap) (t : Tensor) : Except Err DispatchKeySet :=
  (t.getImpl h).map TensorImpl.keySet

/-- `Tensor::is_contiguous(memory_format)` — `impl_->is_contiguous(f)`. -/
def Tensor.is_contiguous (h : Heap) (t : Tensor) (f : MemoryFormat) :
    Except Err Bool :=
  (t.getImpl h).map (fun o => o.is_contiguous f)

/-- `Tensor::is_mkldnn()` — `impl_->is_mkldnn()`. -/
def Tensor.is_mkldnn (h : Heap) (t : Tensor) : Except Err Bool :=
  (t.getImpl h).map TensorImpl.is_mkldnn

/-- `Tensor::is_sparse()` — `impl_->is_sparse()`. -/
def Tensor.is_sparse (h : Heap) (t : Tensor) : Except Err Bool :=
  (t.getImpl h).map TensorImpl.is_sparse

/-- `Tensor::has_storage()` — `defined() && impl_->has_storage()`: the
`defined()` short circuit makes this return `false`, not fail, on the null
handle. -/
def Tensor.has_storage (h : Heap) (t : Tensor) : Except Err Bool :=
  if t.defined then (t.getImpl h).map TensorImpl.hasStorage
  else Except.ok false

/-- Modelled from the spec: `c10::maybe_wrap_dim` (c10/core/WrapDimMinimal.h,
not under src/) — "effective_index = index < 0 ? index + rank : index,
failing with IndexOutOfRange if still outside [0, rank)". -/
def maybe_wrap_dim (dim rank : Int) : Except Err Int :=
  let eff := if dim < 0 then dim + rank else dim
  if 0 ≤ eff ∧ eff < rank then Except.ok eff
  else Except.error Err.indexOutOfRange

/-- `Tensor::size(dim)` — wraps `dim` against `this->dim()` with
`maybe_wrap_dim(dim, this->dim(), false)` and then indexes `sizes()`. -/
def Tensor.size (h : Heap) (t : Tensor) (d : Int) : Except Err Int := do
  let o ← t.getImpl h
  let d2 ← maybe_wrap_dim d o.dim
  pure (o.sizes.getD d2.toNat 0)

/-- `Tensor::stride(dim)` — wraps `dim` against `this->dim()` with
`maybe_wrap_dim(dim, this->dim(), false)` and then indexes `strides()`. -/
def Tensor.stride (h : Heap) (t : Tensor) (d : Int) : Except Err Int := do
  let o ← t.getImpl h
  let d2 ← maybe_wrap_dim d o.dim
  pure (o.strides.getD d2.toNat 0)

/-- `Tensor::nbytes()` — checks `layout() != at::kSparse` (on failure: the
UnsupportedOperation error of spec §7) and returns
`impl_->numel() * impl_->itemsize()`. -/
def Tensor.nbytes (h : Heap) (t : Tensor) : Except Err Nat := do
  let o ← t.getImpl h
  if o.layout = Layout.Sparse then Except.error Err.unsupportedOperation
  else pure (o.numel * o.itemsize)

/-- Modelled from the spec: `c10::get_channels_last_strides_2d` (not under
src/) — the "documented closed-form stride formula keyed on shape only" for
the canonical channels-last pattern of 4-D shapes [N, C, H, W]:
strides [C*H*W, 1, C*W, C].  Shapes of other ranks are outside the 4-D
pattern; the formula yields no strides for them. -/
def get_channels_last_strides_2d (sizes : List Int) : List Int :=
  match sizes with
  | [_, c, h, w] => [c * w * h, 1, c * w, c]
  | _ => []

/-- Modelled from the spec: `c10::get_channels_last_strides_3d` (not under
src/) — the closed-form channels-last strides for 5-D shapes
[N, C, D, H, W]: strides [C*W*H*D, 1, C*W*H, C*W, C]. -/
def get_channels_last_strides_3d (sizes : List Int) : List Int :=
  match sizes with
  | [_, c, d, h, w] => [c * w * h * d, 1, c * w * h, c * w, c]
  | _ => []

/-- The body of `Tensor::suggest_memory_format` on a dereferenced backing
object, transcribed from TensorBody.h lines 299-318: if neither mkldnn nor
sparse, test the strides-like-channels-last flag (then, in exact-match mode,
also the closed-form 2d strides), else the 3d flag (and closed-form 3d
strides); everything else yields Contiguous. -/
def suggestMemoryFormatImpl (o : TensorImpl) (exactMatch : Bool) :
    MemoryFormat :=
  if !o.is_mkldnn && !o.is_sparse then
    if o.stridesLikeChannelsLast then
      if !exactMatch || get_channels_last_strides_2d o.sizes == o.strides then
        MemoryFormat.ChannelsLast
      else
        MemoryFormat.Contiguous
    else if o.stridesLikeChannelsLast3d then
      if !exactMatch || get_channels_last_strides_3d o.sizes == o.strides then
        MemoryFormat.ChannelsLast3d
      else
        MemoryFormat.Contiguous
    else
      MemoryFormat.Contiguous
  else
    MemoryFormat.Contiguous

/-- `Tensor::suggest_memory_format(channels_last_strides_exact_match)`. -/
def Tensor.suggest_memory_format (h : Heap) (t : Tensor)
    (exactMatch : Bool) : Except Err MemoryFormat :=
  (t.getImpl h).map (fun o => suggestMemoryFormatImpl o exactMatch)

/-- Modelled from the spec: the result of materializing a layout-conforming
copy of a backing object for the requested memory format — the dispatcher
"returns a newly materialized, layout-conforming Backing Object".  The cached
contiguity flag for the requested format is set on the fresh object. -/
def materializeContiguous (o : TensorImpl) (f : MemoryFormat) : TensorImpl :=
  match f with
  | MemoryFormat.ChannelsLast =>
    { o with strides := get_channels_last_strides_2d o.sizes,
             isChannelsLastContiguous := true }
  | MemoryFormat.ChannelsLast3d =>
    { o with strides := get_channels_last_strides_3d o.sizes,
             isChannelsLast3dContiguous := true }
  | _ =>
    { o with isContiguousDefault := true }

/-- Modelled from the spec: `Tensor::__dispatch_contiguous` (generated
dispatcher entry, not under src/) — "forwards to the external dispatcher to
produce a newly materialized, layout-conforming Backing Object and wraps it
in a fresh owning Handle".  The fresh object is allocated at the end of the
heap with strong count 1. -/
def dispatch_contiguous (h : Heap) (o : TensorImpl) (f : MemoryFormat) :
    Heap × Tensor :=
  (⟨h.objs ++ [(materializeContiguous o f, 1)]⟩, ⟨some h.objs.length⟩)

/-- `Tensor::contiguous(memory_format)` — TensorBody.h lines 131-137: if
`is_contiguous(memory_format)` then `return *this` (a copy, one refcount
bump), else `return __dispatch_contiguous(memory_format)`. -/
def Tensor.contiguous (h : Heap) (t : Tensor) (f : MemoryFormat) :
    Heap × Except Err Tensor :=
  match t.getImpl h with
  | Except.error e => (h, Except.error e)
  | Except.ok o =>
    if o.is_contiguous f then
      let c := t.copyCtor h
      (c.1, Except.ok c.2)
    else
      let d := dispatch_contiguous h o f
      (d.1, Except.ok d.2)

/-- `c10::MaybeOwned<Tensor>` — either owns a Tensor by value or refers to an
existing one (the Borrowed View of the spec). -/
inductive MaybeOwned
  | borrowed (t : Tensor)
  | owned (t : Tensor)
deriving DecidableEq, Repr

/-- `Tensor::expect_contiguous(memory_format) const &` — TensorBody.h lines
1018-1024: if `is_contiguous(memory_format)` then
`MaybeOwned<Tensor>::borrowed(*this)` (no refcount traffic), else
`MaybeOwned<Tensor>::owned(__dispatch_contiguous(memory_format))`. -/
def Tensor.expect_contiguous (h : Heap) (t : Tensor) (f : MemoryFormat) :
    Heap × Except Err MaybeOwned :=
  match t.getImpl h with
  | Except.error e => (h, Except.error e)
  | Except.ok o =>
    if o.is_contiguous f then
      (h, Except.ok (MaybeOwned.borrowed t))
    else
      let d := dispatch_contiguous h o f
      (d.1, Except.ok (MaybeOwned.owned d.2))

/-- The receiver value category of a C++ member call. -/
inductive ValueCategory
  | lvalue
  | rvalue
deriving DecidableEq, Repr

/-- The overload set of `expect_contiguous`, by receiver value category:
the `const &` overload (TensorBody.h line 156) exists; the `&&` overload
(line 160) is declared `= delete`, so no overload is available on a
temporary (rvalue) handle — the call is rejected at compile time. -/
def expectContiguousOverloadAvailable : ValueCategory → Bool
  | ValueCategory.lvalue => true
  | ValueCategory.rvalue => false

/-- `Tensor::Tensor(c10::intrusive_ptr<TensorImpl, UndefinedTensorImpl>
tensor_impl)` — TensorBody.h lines 103-109: moves the already-biased
reference in (no count change), and throws ("TensorImpl with nullptr is not
supported" — the InvariantViolation of spec §7) when the moved-in pointer is
null. -/
def tensorCtorFromImpl (h : Heap) (p : Option Nat) :
    Heap × Except Err Tensor :=
  match p with
  | none => (h, Except.error Err.invariantViolation)
  | some i => (h, Except.ok ⟨some i⟩)

/-- Modelled from the spec: `Tensor::enforce_invariants` is only declared
under src/ (TensorBody.h line 916); the spec says construct-from-owned-
backing "runs an enforce-invariants check (shape/stride consistency, etc.)".
We check shape.length == stride.length, the data-model invariant of spec §3,
failing with InvariantViolation. -/
def enforce_invariants (o : TensorImpl) : Except Err Unit :=
  if o.sizes.length = o.strides.length then Except.ok ()
  else Except.error Err.invariantViolation

/-- `Tensor::wrap_tensor_impl(tensor_impl)` — TensorBody.h lines 117-122:
constructs `Tensor r(std::move(tensor_impl))`, runs
`r.enforce_invariants()`, and returns `r`.  On a failure after `r` has been
constructed, stack unwinding runs `r`'s destructor, which decrements the
strong count of the adopted (already-biased) reference. -/
def wrap_tensor_impl (h : Heap) (p : Option Nat) :
    Heap × Except Err Tensor :=
  match tensorCtorFromImpl h p with
  | (h1, Except.error e) => (h1, Except.error e)
  | (h1, Except.ok r) =>
    match r.getImpl h1 with
    | Except.error e => (Tensor.dtor h1 r, Except.error e)
    | Except.ok o =>
      match enforce_invariants o with
      | Except.error e => (Tensor.dtor h1 r, Except.error e)
      | Except.ok _ => (h1, Except.ok r)

/-- The argument record an invocation of the external `_backward` collaborator
receives (TensorBody.h line 894 declares `_backward`; its body lives outside
src/, so we record the forwarded arguments). -/
structure BackwardCall where
  inputs : List Tensor
  gradient : Tensor
  retainGraph : Option Bool
  createGraph : Bool
deriving DecidableEq, Repr

/-- `Tensor::backward(gradient, retain_graph, create_graph, inputs)` —
TensorBody.h lines 689-700: when `inputs` is present, check
`inputs.value().size() > 0` (TORCH_CHECK failure otherwise, before anything
is forwarded) and forward `inputs.value()` to `_backward`; when absent,
forward the empty list `{}`. -/
def Tensor.backward (gradient : Tensor) (retainGraph : Option Bool)
    (createGraph : Bool) (inputs : Option (List Tensor)) :
    Except Err BackwardCall :=
  match inputs with
  | some ins =>
    if ins.length > 0 then
      Except.ok ⟨ins, gradient, retainGraph, createGraph⟩
    else
      Except.error Err.checkFailed
  | none => Except.ok ⟨[], gradient, retainGraph, createGraph⟩

/-- The void-returning-hook wrapper built by the `hook_return_void_t`
overload of `Tensor::register_hook` (TensorBody.h lines 930-940): the stored
std::function invokes the user hook and then returns `Tensor()` — the
default-constructed, undefined handle. -/
def wrapVoidHook (fn : Tensor → Unit) : Tensor → Tensor :=
  fun grad =>
    let _ := fn grad
    Tensor.nullT

/-- The per-tensor hook list, kept in registration order; the position token
returned by registration is the index (`_register_hook` returns "the index
of the hook in the list"). -/
structure HookState where
  hooks : List (Tensor → Tensor)

/-- `Tensor::register_hook` (void-returning overload) — appends the wrapper
around the user hook via `_register_hook` and returns its position. -/
def registerHookVoid (s : HookState) (fn : Tensor → Unit) :
    HookState × Nat :=
  (⟨s.hooks ++ [wrapVoidHook fn]⟩, s.hooks.length)

/-- Modelled from the spec: the hook invocation chain of the autograd engine
(not under src/) — hooks run in registration order; "a hook that returns a
replacement value causes all subsequent hooks in the chain to observe the
replacement, not the original", while a hook that returns the undefined
handle (the encoding of a void return) leaves the gradient unchanged. -/
def runHooks : List (Tensor → Tensor) → Tensor → Tensor
  | [], g => g
  | f :: fs, g =>
    let r := f g
    runHooks fs (if r.defined then r else g)

/-- A sample dispatch key set (plain CPU dense object). -/
def cpuKeySet : DispatchKeySet :=
  ⟨true, false, false, false, false⟩

/-- A sample contiguous 2×3 row-major backing object. -/
def sampleImpl : TensorImpl :=
  ⟨[2, 3], [3, 1], 0, 4, Layout.Strided, cpuKeySet, true,
   true, false, false, false, false⟩

/-- A sample heap holding just `sampleImpl` with strong count 1. -/
def sampleHeap : Heap :=
  ⟨[(sampleImpl, 1)]⟩

/-- A sample defined handle pointing at `sampleImpl`. -/
def sampleTensor : Tensor :=
  ⟨some 0⟩

/-- The empty heap. -/
def emptyHeap : Heap :=
  ⟨[]⟩

/-- A transposed (non-contiguous) 3×2 backing object with strides [1, 3]. -/
def transposedImpl : TensorImpl :=
  ⟨[3, 2], [1, 3], 0, 4, Layout.Strided, cpuKeySet, true,
   false, false, false, false, false⟩

/-- A heap holding just `transposedImpl` with strong count 1. -/
def transposedHeap : Heap :=
  ⟨[(transposedImpl, 1)]⟩

/-- A channels-last 4-D backing object: sizes [1, 2, 3, 4] with the exact
closed-form channels-last strides [24, 1, 8, 2]. -/
def channelsLastImpl : TensorImpl :=
  ⟨[1, 2, 3, 4], [24, 1, 8, 2], 0, 4, Layout.Strided, cpuKeySet, true,
   false, true, false, true, false⟩

/-- A heap holding just `channelsLastImpl` with strong count 1. -/
def channelsLastHeap : Heap :=
  ⟨[(channelsLastImpl, 1)]⟩

/-- A sparse backing object. -/
def sparseImpl : TensorImpl :=
  ⟨[2, 3], [3, 1], 0, 4, Layout.Sparse, ⟨true, false, true, false, false⟩,
   false, false, false, false, false, false⟩

/-- A heap holding just `sparseImpl` with strong count 1. -/
def sparseHeap : Heap :=
  ⟨[(sparseImpl, 1)]⟩

/-- C1: for every defined owning Handle, constructing a borrowed Handle from
it leaves the heap (hence every strong count) unchanged, and the full
construct + destroy round trip of the borrow also leaves the heap unchanged:
the strong count observed before equals the one observed after. -/
theorem c1_borrow_preserves_strong_count (h : Heap) (t : Tensor) (i : Nat)
    (_hdef : t.impl = some i) :
    (MaybeOwnedTraits.createBorrow h t).1 = h ∧
    borrowRoundTrip h t = h ∧
    Heap.strongAt (borrowRoundTrip h t) i = Heap.strongAt h i := by
  refine ⟨rfl, rfl, rfl⟩

/-- Witness for C1 at a concrete heap and handle. -/
theorem c1_borrow_preserves_strong_count_witness :
    (MaybeOwnedTraits.createBorrow sampleHeap sampleTensor).1 = sampleHeap ∧
    borrowRoundTrip sampleHeap sampleTensor = sampleHeap ∧
    Heap.strongAt (borrowRoundTrip sampleHeap sampleTensor) 0 =
      Heap.strongAt sampleHeap 0 :=
  c1_borrow_preserves_strong_count sampleHeap sampleTensor 0 rfl

/-- Dereferencing a valid handle yields its backing object. -/
theorem getImpl_of_lookup (h : Heap) (i : Nat) (o : TensorImpl) (c : Nat)
    (ho : h.objs[i]? = some (o, c)) :
    Tensor.getImpl h ⟨some i⟩ = Except.ok o := by
  simp [Tensor.getImpl, ho]

/-- `modifyAt` with a second-component-only update keeps the first
components of a pair list unchanged. -/
theorem modifyAt_map_fst (g : β → β) (l : List (α × β)) (i : Nat) :
    (modifyAt (fun oc => (oc.1, g oc.2)) i l).map Prod.fst = l.map Prod.fst := by
  induction l generalizing i with
  | nil => cases i <;> rfl
  | cons x xs ih =>
    cases i with
    | zero => simp [modifyAt]
    | succ n => simp [modifyAt, ih]

/-- Incrementing a strong count changes no backing object. -/
theorem incref_map_fst (h : Heap) (i : Nat) :
    (h.incref i).objs.map Prod.fst = h.objs.map Prod.fst :=
  modifyAt_map_fst (fun c => c + 1) h.objs i

/-- The materialized copy is contiguous in the requested memory format. -/
theorem materialize_is_contiguous (o : TensorImpl) (f : MemoryFormat) :
    (materializeContiguous o f).is_contiguous f = true := by
  cases f <;> rfl

/-- C2: on a valid handle, `contiguous(f)` returns a handle `is_same` with
the original and allocates no new backing object when the backing object is
already contiguous in format `f`; otherwise it returns the freshly
dispatched handle, which is not `is_same` with the original and is
contiguous in format `f`. -/
theorem c2_contiguous_fast_path (h : Heap) (t : Tensor) (i : Nat)
    (o : TensorImpl) (c : Nat) (f : MemoryFormat)
    (hp : t.impl = some i) (ho : h.objs[i]? = some (o, c)) :
    (o.is_contiguous f = true →
      (Tensor.contiguous h t f).2 = Except.ok t ∧
      Tensor.is_same t t = true ∧
      (Tensor.contiguous h t f).1.objs.map Prod.fst = h.objs.map Prod.fst) ∧
    (o.is_contiguous f = false →
      (Tensor.contiguous h t f).2 = Except.ok ⟨some h.objs.length⟩ ∧
      Tensor.is_same ⟨some h.objs.length⟩ t = false ∧
      Tensor.is_contiguous (Tensor.contiguous h t f).1
        ⟨some h.objs.length⟩ f = Except.ok true) := by
  obtain ⟨ti⟩ := t
  subst hp
  have hget := getImpl_of_lookup h i o c ho
  have hi : i < h.objs.length := (List.getElem?_eq_some_iff.mp ho).1
  constructor
  · intro htrue
    refine ⟨?_, ?_, ?_⟩
    · simp [Tensor.contiguous, hget, htrue, Tensor.copyCtor]
    · simp [Tensor.is_same]
    · simp [Tensor.contiguous, hget, htrue, Tensor.copyCtor, incref_map_fst]
  · intro hfalse
    refine ⟨?_, ?_, ?_⟩
    · simp [Tensor.contiguous, hget, hfalse, dispatch_contiguous]
    · simp only [Tensor.is_same]
      simp [Nat.ne_of_gt hi]
    · simp only [Tensor.contiguous, hget, hfalse]
      simp [dispatch_contiguous, Tensor.is_contiguous, Tensor.getImpl,
            List.getElem?_concat_length, Except.map, materialize_is_contiguous]

/-- Witness for C2 at a concrete non-contiguous handle. -/
theorem c2_contiguous_fast_path_witness :
    (Tensor.contiguous transposedHeap ⟨some 0⟩ MemoryFormat.Contiguous).2
      = Except.ok ⟨some transposedHeap.objs.length⟩ ∧
    Tensor.is_same ⟨some transposedHeap.objs.length⟩ ⟨some 0⟩ = false ∧
    Tensor.is_contiguous
      (Tensor.contiguous transposedHeap ⟨some 0⟩ MemoryFormat.Contiguous).1
      ⟨some transposedHeap.objs.length⟩ MemoryFormat.Contiguous
      = Except.ok true :=
  (c2_contiguous_fast_path transposedHeap ⟨some 0⟩ 0 transposedImpl 1
    MemoryFormat.Contiguous rfl rfl).2 rfl

/-- C3: on a valid handle reached as a persistent reference,
`expect_contiguous(f)` yields the borrowed view of the handle itself (heap
untouched) when the backing object is contiguous in `f`, and the owned view
of a freshly materialized contiguous handle otherwise; the rvalue overload
is deleted, so no overload is available on a temporary. -/
theorem c3_expect_contiguous_borrow (h : Heap) (t : Tensor) (i : Nat)
    (o : TensorImpl) (c : Nat) (f : MemoryFormat)
    (hp : t.impl = some i) (ho : h.objs[i]? = some (o, c)) :
    (o.is_contiguous f = true →
      Tensor.expect_contiguous h t f = (h, Except.ok (MaybeOwned.borrowed t))) ∧
    (o.is_contiguous f = false →
      (Tensor.expect_contiguous h t f).2
        = Except.ok (MaybeOwned.owned ⟨some h.objs.length⟩) ∧
      Tensor.is_same ⟨some h.objs.length⟩ t = false ∧
      Tensor.is_contiguous (Tensor.expect_contiguous h t f).1
        ⟨some h.objs.length⟩ f = Except.ok true) ∧
    expectContiguousOverloadAvailable ValueCategory.rvalue = false := by
  obtain ⟨ti⟩ := t
  subst hp
  have hget := getImpl_of_lookup h i o c ho
  have hi : i < h.objs.length := (List.getElem?_eq_some_iff.mp ho).1
  refine ⟨?_, ?_, rfl⟩
  · intro htrue
    simp [Tensor.expect_contiguous, hget, htrue]
  · intro hfalse
    refine ⟨?_, ?_, ?_⟩
    · simp [Tensor.expect_contiguous, hget, hfalse, dispatch_contiguous]
    · simp only [Tensor.is_same]
      simp [Nat.ne_of_gt hi]
    · simp only [Tensor.expect_contiguous, hget, hfalse]
      simp [dispatch_contiguous, Tensor.is_contiguous, Tensor.getImpl,
            List.getElem?_concat_length, Except.map, materialize_is_contiguous]

/-- Witness for C3 at a concrete contiguous handle. -/
theorem c3_expect_contiguous_borrow_witness :
    Tensor.expect_contiguous sampleHeap sampleTensor MemoryFormat.Contiguous
      = (sampleHeap, Except.ok (MaybeOwned.borrowed sampleTensor)) :=
  ((c3_expect_contiguous_borrow sampleHeap sampleTensor 0 sampleImpl 1
    MemoryFormat.Contiguous rfl rfl).1) rfl

/-- C4: constructing from an owned backing reference fails with
InvariantViolation on the null reference; on a live reference the
enforce-invariants check decides the result: when it passes, the handle
wrapping the reference is returned with the heap (every strong count)
untouched — the already-biased ownership unit is adopted, not incremented —
and when it fails, InvariantViolation is raised and unwinding runs the
constructed handle's destructor, decrementing the adopted unit. -/
theorem c4_wrap_tensor_impl_checks (h : Heap) (i : Nat) (o : TensorImpl)
    (c : Nat) (ho : h.objs[i]? = some (o, c)) :
    wrap_tensor_impl h none = (h, Except.error Err.invariantViolation) ∧
    ((wrap_tensor_impl h (some i)).2 = Except.ok ⟨some i⟩ ↔
      enforce_invariants o = Except.ok ()) ∧
    (enforce_invariants o = Except.ok () →
      wrap_tensor_impl h (some i) = (h, Except.ok ⟨some i⟩)) ∧
    (enforce_invariants o = Except.error Err.invariantViolation →
      wrap_tensor_impl h (some i)
        = (Tensor.dtor h ⟨some i⟩, Except.error Err.invariantViolation)) := by
  have hget := getImpl_of_lookup h i o c ho
  by_cases hsz : o.sizes.length = o.strides.length
  · refine ⟨rfl, ?_, ?_, ?_⟩
    · simp [wrap_tensor_impl, tensorCtorFromImpl, hget, enforce_invariants, hsz]
    · intro _
      simp [wrap_tensor_impl, tensorCtorFromImpl, hget, enforce_invariants, hsz]
    · simp [enforce_invariants, hsz]
  · refine ⟨rfl, ?_, ?_, ?_⟩
    · simp [wrap_tensor_impl, tensorCtorFromImpl, hget, enforce_invariants, hsz]
    · simp [enforce_invariants, hsz]
    · intro _
      simp [wrap_tensor_impl, tensorCtorFromImpl, hget, enforce_invariants, hsz]

/-- Witness for C4 at a concrete heap (the check passes on `sampleImpl`). -/
theorem c4_wrap_tensor_impl_checks_witness :
    wrap_tensor_impl sampleHeap none
      = (sampleHeap, Except.error Err.invariantViolation) ∧
    wrap_tensor_impl sampleHeap (some 0) = (sampleHeap, Except.ok ⟨some 0⟩) :=
  ⟨(c4_wrap_tensor_impl_checks sampleHeap 0 sampleImpl 1 rfl).1,
   (c4_wrap_tensor_impl_checks sampleHeap 0 sampleImpl 1 rfl).2.2.1 rfl⟩

/-- Counterexample for C5 as stated: `has_storage()` is a metadata query,
is none of `defined()`/`reset()`/equality-of-nullness, and yet on the
default-constructed handle it returns the value `false` instead of failing
(the `defined() &&` short circuit in TensorBody.h line 361). -/
theorem c5_null_handle_counterexample :
    Tensor.has_storage emptyHeap Tensor.nullT = Except.ok false ∧
    Tensor.nullT.defined = false := by
  exact ⟨rfl, rfl⟩

/-- C5 (amended): on the default-constructed handle `defined()` is false and
every embedded metadata/operation query fails with UndefinedState — except
`defined()`, `reset()`, equality-of-nullness, and `has_storage()`, which
returns `false` instead of failing. -/
theorem c5_null_handle_queries (h : Heap) (f : MemoryFormat) (d : Int)
    (em : Bool) :
    Tensor.nullT.defined = false ∧
    Tensor.dim h Tensor.nullT = Except.error Err.undefinedState ∧
    Tensor.sizes h Tensor.nullT = Except.error Err.undefinedState ∧
    Tensor.strides h Tensor.nullT = Except.error Err.undefinedState ∧
    Tensor.storage_offset h Tensor.nullT = Except.error Err.undefinedState ∧
    Tensor.numel h Tensor.nullT = Except.error Err.undefinedState ∧
    Tensor.itemsize h Tensor.nullT = Except.error Err.undefinedState ∧
    Tensor.layout h Tensor.nullT = Except.error Err.undefinedState ∧
    Tensor.key_set h Tensor.nullT = Except.error Err.undefinedState ∧
    Tensor.is_contiguous h Tensor.nullT f = Except.error Err.undefinedState ∧
    Tensor.is_mkldnn h Tensor.nullT = Except.error Err.undefinedState ∧
    Tensor.is_sparse h Tensor.nullT = Except.error Err.undefinedState ∧
    Tensor.size h Tensor.nullT d = Except.error Err.undefinedState ∧
    Tensor.stride h Tensor.nullT d = Except.error Err.undefinedState ∧
    Tensor.nbytes h Tensor.nullT = Except.error Err.undefinedState ∧
    Tensor.suggest_memory_format h Tensor.nullT em
      = Except.error Err.undefinedState ∧
    Tensor.has_storage h Tensor.nullT = Except.ok false ∧
    Tensor.reset h Tensor.nullT = (h, Tensor.nullT) ∧
    Tensor.is_same Tensor.nullT Tensor.nullT = true := by
  exact ⟨rfl, rfl, rfl, rfl, rfl, rfl, rfl, rfl, rfl, rfl, rfl, rfl, rfl,
    rfl, rfl, rfl, rfl, rfl, rfl⟩

/-- In-range non-negative indices pass the wrap unchanged. -/
theorem maybe_wrap_dim_id (d r : Int) (h0 : 0 ≤ d) (h1 : d < r) :
    maybe_wrap_dim d r = Except.ok d := by
  have hn : ¬ d < 0 := by omega
  simp [maybe_wrap_dim, hn, h0, h1]

/-- Negative indices with the wrapped value in range wrap by adding the
rank. -/
theorem maybe_wrap_dim_wrap (d r : Int) (h0 : d < 0) (h1 : 0 ≤ d + r) :
    maybe_wrap_dim d r = Except.ok (d + r) := by
  have h2 : d + r < r := by omega
  simp [maybe_wrap_dim, h0, h1, h2]

/-- The rank itself is out of range. -/
theorem maybe_wrap_dim_rank (r : Int) (h0 : 0 ≤ r) :
    maybe_wrap_dim r r = Except.error Err.indexOutOfRange := by
  have hn : ¬ r < 0 := by omega
  simp [maybe_wrap_dim, hn, lt_irrefl]

/-- -rank-1 is out of range even after the wrap. -/
theorem maybe_wrap_dim_neg_rank (r : Int) (h0 : 0 ≤ r) :
    maybe_wrap_dim (-r - 1) r = Except.error Err.indexOutOfRange := by
  have hn : -r - 1 < 0 := by omega
  have he : -r - 1 + r = -1 := by omega
  simp [maybe_wrap_dim, hn, he, (show ¬ (0:Int) ≤ -1 by omega)]

/-- C6: on a valid handle, `size(d)` and `stride(d)` agree with
`size(d - rank)` and `stride(d - rank)` for every `d` in `[0, rank)`, and
`size`/`stride` at `rank` and at `-rank-1` fail with IndexOutOfRange. -/
theorem c6_size_stride_wrap (h : Heap) (t : Tensor) (o : TensorImpl)
    (ho : t.getImpl h = Except.ok o) :
    (∀ d : Int, 0 ≤ d → d < o.dim →
      Tensor.size h t d = Tensor.size h t (d - o.dim) ∧
      Tensor.stride h t d = Tensor.stride h t (d - o.dim)) ∧
    Tensor.size h t o.dim = Except.error Err.indexOutOfRange ∧
    Tensor.size h t (-o.dim - 1) = Except.error Err.indexOutOfRange ∧
    Tensor.stride h t o.dim = Except.error Err.indexOutOfRange ∧
    Tensor.stride h t (-o.dim - 1) = Except.error Err.indexOutOfRange := by
  have hr : (0:Int) ≤ o.dim := by unfold TensorImpl.dim; omega
  refine ⟨?_, ?_, ?_, ?_, ?_⟩
  · intro d h0 h1
    have w1 := maybe_wrap_dim_id d o.dim h0 h1
    have w2 : maybe_wrap_dim (d - o.dim) o.dim = Except.ok d := by
      have hw := maybe_wrap_dim_wrap (d - o.dim) o.dim (by omega) (by omega)
      rwa [(show d - o.dim + o.dim = d by omega)] at hw
    constructor
    · simp [Tensor.size, ho, w1, w2, Except.bind, Except.map, Bind.bind, Functor.map, Pure.pure, Except.pure]
    · simp [Tensor.stride, ho, w1, w2, Except.bind, Except.map, Bind.bind, Functor.map, Pure.pure, Except.pure]
  · simp [Tensor.size, ho, maybe_wrap_dim_rank o.dim hr, Except.bind, Except.map, Bind.bind, Functor.map, Pure.pure, Except.pure]
  · simp [Tensor.size, ho, maybe_wrap_dim_neg_rank o.dim hr, Except.bind, Except.map, Bind.bind, Functor.map, Pure.pure, Except.pure]
  · simp [Tensor.stride, ho, maybe_wrap_dim_rank o.dim hr, Except.bind, Except.map, Bind.bind, Functor.map, Pure.pure, Except.pure]
  · simp [Tensor.stride, ho, maybe_wrap_dim_neg_rank o.dim hr, Except.bind, Except.map, Bind.bind, Functor.map, Pure.pure, Except.pure]

/-- Witness for C6 at a concrete rank-2 handle. -/
theorem c6_size_stride_wrap_witness :
    Tensor.size sampleHeap sampleTensor 1
      = Tensor.size sampleHeap sampleTensor (1 - TensorImpl.dim sampleImpl) ∧
    Tensor.size sampleHeap sampleTensor (TensorImpl.dim sampleImpl)
      = Except.error Err.indexOutOfRange :=
  ⟨((c6_size_stride_wrap sampleHeap sampleTensor sampleImpl rfl).1 1
      (by decide) (by decide)).1,
   (c6_size_stride_wrap sampleHeap sampleTensor sampleImpl rfl).2.1⟩

/-- C7: on a valid handle, `suggest_memory_format` returns ChannelsLast
exactly when the object is neither mkldnn nor sparse, its strides are like
channels-last for a 4-D shape, and (in exact-match mode) they equal the
closed-form channels-last strides; ChannelsLast3d likewise for the 5-D
pattern; in every other case it returns Contiguous. -/
theorem c7_suggest_memory_format (h : Heap) (t : Tensor) (o : TensorImpl)
    (em : Bool) (ho : t.getImpl h = Except.ok o) :
    (Tensor.suggest_memory_format h t em
        = Except.ok MemoryFormat.ChannelsLast ↔
      (o.is_mkldnn = false ∧ o.is_sparse = false ∧
        o.stridesLikeChannelsLast = true ∧
        (em = true → get_channels_last_strides_2d o.sizes = o.strides))) ∧
    (Tensor.suggest_memory_format h t em
        = Except.ok MemoryFormat.ChannelsLast3d ↔
      (o.is_mkldnn = false ∧ o.is_sparse = false ∧
        o.stridesLikeChannelsLast = false ∧
        o.stridesLikeChannelsLast3d = true ∧
        (em = true → get_channels_last_strides_3d o.sizes = o.strides))) ∧
    (Tensor.suggest_memory_format h t em
        ≠ Except.ok MemoryFormat.ChannelsLast →
      Tensor.suggest_memory_format h t em
        ≠ Except.ok MemoryFormat.ChannelsLast3d →
      Tensor.suggest_memory_format h t em
        = Except.ok MemoryFormat.Contiguous) := by
  have hs : Tensor.suggest_memory_format h t em
      = Except.ok (suggestMemoryFormatImpl o em) := by
    simp [Tensor.suggest_memory_format, ho, Except.bind, Except.map, Bind.bind, Functor.map, Pure.pure, Except.pure]
  rw [hs]
  unfold suggestMemoryFormatImpl
  by_cases h2 : get_channels_last_strides_2d o.sizes = o.strides <;>
    by_cases h3 : get_channels_last_strides_3d o.sizes = o.strides <;>
    cases hmk : o.is_mkldnn <;> cases hsp : o.is_sparse <;>
    cases hcl : o.stridesLikeChannelsLast <;>
    cases hcl3 : o.stridesLikeChannelsLast3d <;>
    cases em <;>
    simp [beq_iff_eq, h2, h3]

/-- Witness for C7 at a concrete exact channels-last handle. -/
theorem c7_suggest_memory_format_witness :
    Tensor.suggest_memory_format channelsLastHeap ⟨some 0⟩ true
      = Except.ok MemoryFormat.ChannelsLast :=
  ((c7_suggest_memory_format channelsLastHeap ⟨some 0⟩ channelsLastImpl true
      rfl).1).mpr ⟨rfl, rfl, rfl, fun _ => by decide⟩

/-- C8: on a valid handle, `nbytes()` fails with UnsupportedOperation when
the layout is sparse, and otherwise returns numel * itemsize. -/
theorem c8_nbytes (h : Heap) (t : Tensor) (o : TensorImpl)
    (ho : t.getImpl h = Except.ok o) :
    (o.layout = Layout.Sparse →
      Tensor.nbytes h t = Except.error Err.unsupportedOperation) ∧
    (o.layout ≠ Layout.Sparse →
      Tensor.nbytes h t = Except.ok (o.numel * o.itemsize)) := by
  constructor
  · intro hl
    simp [Tensor.nbytes, ho, hl, Except.bind, Except.map, Bind.bind, Functor.map, Pure.pure, Except.pure]
  · intro hl
    simp [Tensor.nbytes, ho, hl, Except.bind, Except.map, Bind.bind, Functor.map, Pure.pure, Except.pure]

/-- Witness for C8 at a concrete sparse handle. -/
theorem c8_nbytes_witness :
    Tensor.nbytes sparseHeap ⟨some 0⟩ = Except.error Err.unsupportedOperation :=
  (c8_nbytes sparseHeap ⟨some 0⟩ sparseImpl rfl).1 rfl

/-- C9: `backward` with a present-but-empty inputs list fails (no call is
forwarded to `_backward`), while an absent inputs argument forwards the
empty list and does not fail. -/
theorem c9_backward_empty_inputs (g : Tensor) (rg : Option Bool) (cg : Bool) :
    Tensor.backward g rg cg (some []) = Except.error Err.checkFailed ∧
    Tensor.backward g rg cg none = Except.ok ⟨[], g, rg, cg⟩ := by
  exact ⟨rfl, rfl⟩

/-- C10: the hook stored by the void-returning `register_hook` overload is
the wrapper around the user function; the wrapper always returns the
default-constructed handle, so in the invocation chain the gradient seen by
all subsequent hooks is unchanged. -/
theorem c10_void_hook_wrapper (s : HookState) (fn : Tensor → Unit)
    (fs : List (Tensor → Tensor)) (g : Tensor) :
    (registerHookVoid s fn).1.hooks = s.hooks ++ [wrapVoidHook fn] ∧
    wrapVoidHook fn g = Tensor.nullT ∧
    runHooks (wrapVoidHook fn :: fs) g = runHooks fs g := by
  refine ⟨rfl, rfl, ?_⟩
  simp [runHooks, wrapVoidHook, Tensor.defined, Tensor.nullT]

end ATen
